import Mathlib

/-!
Verification development for the subway route calculator
(src/Map_service.cpp).  The C++ program is shallowly embedded:

* `double` quantities that the program only adds, subtracts, divides and
  compares (track distances, speeds, times, coordinates) are modelled
  exactly by `ℚ`;
* the transcendental haversine computation (`std::sin`, `std::cos`,
  `std::sqrt`, `std::atan2`) is modelled over `ℝ` with Mathlib's real
  functions, so `calcStraightDist` and everything downstream of it is
  noncomputable;
* `std::map<std::string, Line>` is modelled by an association list with
  distinct keys; `operator[]`'s insert-if-absent behaviour is modelled
  faithfully by `mapIndex`, which returns the (possibly extended) map,
  so that the frame property of `calculateSegment` is a real statement;
* `std::string::find` is modelled by `firstIdx?`, and `substr`'s
  `size_t` underflow (a huge length is clamped to "rest of the string")
  is modelled by the `op < cp` case split in `parseToken`;
* stream output with `std::fixed << std::setprecision(1)` is modelled by
  `formatFixed1Q` / `formatFixed1R` (round half away from zero to one
  decimal digit, as `printf`-style formatting does for these values),
  and `(int)std::round` by `roundAwayQ`.
-/

/-- Radius of the earth in km (`const double R` in the source). -/
def Rearth : ℝ := 6371.0

/-- The program's own `PI` constant — the decimal literal
`3.14159265358979323846`, not the mathematical `π`. -/
def cppPI : ℝ := 3.14159265358979323846

/-- Model of `toRad`: degrees to radians using the program's `PI` literal. -/
noncomputable def toRad (degree : ℝ) : ℝ := degree * cppPI / 180.0

/-- Model of C `std::atan2 y x` (for non-NaN finite arguments). -/
noncomputable def atan2 (y x : ℝ) : ℝ :=
  if 0 < x then Real.arctan (y / x)
  else if x < 0 then
    (if 0 ≤ y then Real.arctan (y / x) + Real.pi
     else Real.arctan (y / x) - Real.pi)
  else
    (if 0 < y then Real.pi / 2
     else if y < 0 then -(Real.pi / 2)
     else 0)

/-- Model of `struct Station`: name, cumulative distance from the line's start,
latitude and longitude (defaulting to the `0.0` "no coordinate"
sentinel). -/
structure Station where
  name : String
  distFromStart : ℚ
  lat : ℚ
  lon : ℚ
deriving DecidableEq, Repr

/-- Model of `struct Line`: human-readable name, ordered stations, average
speed. -/
structure Line where
  lineName : String
  stations : List Station
  avgSpeed : ℚ
deriving DecidableEq, Repr

/-- Model of `Line::findStation`: linear search, first name match wins. -/
def Line.findStation (l : Line) (n : String) : Option Station :=
  l.stations.find? (fun s => s.name == n)

/-- Model of `Line::addStation`: append a station; absent coordinates default to
the `0.0` sentinel. -/
def Line.addStation (l : Line) (name : String) (dist : ℚ)
    (lat : ℚ := 0) (lon : ℚ := 0) : Line :=
  { l with stations := l.stations ++ [⟨name, dist, lat, lon⟩] }

/-- The default-constructed `Line()` (empty name, no stations, average
speed 40). -/
def defaultLine : Line := ⟨"", [], 40.0⟩

/-- The member `std::map<std::string, Line>` modelled as an association list with
distinct keys. -/
abbrev LineMap := List (String × Line)

/-- Model of `lines.find(k)` as an option-returning lookup. -/
def mapFind? (m : LineMap) (k : String) : Option (String × Line) :=
  m.find? (fun p => p.1 == k)

/-- Model of `lines[k]` (`std::map::operator[]`): returns the mapped line, and
default-inserts when the key is absent — the returned map is the
possibly-extended one. -/
def mapIndex (m : LineMap) (k : String) : Line × LineMap :=
  match mapFind? m k with
  | some p => (p.2, m)
  | none => (defaultLine, m ++ [(k, defaultLine)])

/-- Convenience lookup of the line mapped to a key. -/
def lookupLine (m : LineMap) (k : String) : Option Line :=
  (mapFind? m k).map (fun p => p.2)

/-- Round half away from zero, on exact rationals
(`(int)std::round` on the modelled values). -/
def roundAwayQ (x : ℚ) : ℤ :=
  if 0 ≤ x then ⌊x + 1 / 2⌋ else -⌊-x + 1 / 2⌋

/-- Round half away from zero, on reals. -/
noncomputable def roundAwayR (x : ℝ) : ℤ :=
  if 0 ≤ x then ⌊x + 1 / 2⌋ else -⌊-x + 1 / 2⌋

/-- Render a number of tenths as a decimal string with exactly one
digit after the point. -/
def formatInt1 (n : ℤ) : String :=
  (if n < 0 then "-" else "") ++
    toString (n.natAbs / 10) ++ "." ++ toString (n.natAbs % 10)

/-- Model of `std::fixed << std::setprecision(1)` output on an exact-rational double. -/
def formatFixed1Q (x : ℚ) : String := formatInt1 (roundAwayQ (x * 10))

/-- Model of `std::fixed << std::setprecision(1)` output on a real-valued double. -/
noncomputable def formatFixed1R (x : ℝ) : String :=
  formatInt1 (roundAwayR (x * 10))

/-- Model of `Subway::calcStraightDist`: the haversine great-circle distance,
returning `0.0` immediately when either latitude is the `0` sentinel. -/
noncomputable def calcStraightDist (lat1 lon1 lat2 lon2 : ℚ) : ℝ :=
  if lat1 = 0 ∨ lat2 = 0 then 0.0
  else
    let dLat := toRad ((lat2 : ℝ) - (lat1 : ℝ))
    let dLon := toRad ((lon2 : ℝ) - (lon1 : ℝ))
    let a := Real.sin (dLat / 2) * Real.sin (dLat / 2) +
      Real.cos (toRad (lat1 : ℝ)) * Real.cos (toRad (lat2 : ℝ)) *
        (Real.sin (dLon / 2) * Real.sin (dLon / 2))
    let c := 2 * atan2 (Real.sqrt a) (Real.sqrt (1 - a))
    Rearth * c

/-- The track distance used by `calculateSegment`:
`std::abs(s1->distFromStart - s2->distFromStart)`. -/
def segDistance (s1 s2 : Station) : ℚ :=
  |s1.distFromStart - s2.distFromStart|

/-- The success-path rendering of `Subway::calculateSegment`:
`"{dist}km({time}분, {start}-{end}[, 직선 {straight}km])"`. -/
noncomputable def renderSegment (startName endName : String)
    (line : Line) (s1 s2 : Station) : String :=
  let distance := segDistance s1 s2
  let straightDist := calcStraightDist s1.lat s1.lon s2.lat s2.lon
  let timeMinutes := distance / line.avgSpeed * 60
  formatFixed1Q distance ++ "km(" ++ toString (roundAwayQ timeMinutes) ++
    "분, " ++ startName ++ "-" ++ endName ++
    (if 0 < straightDist
      then ", 직선 " ++ formatFixed1R straightDist ++ "km"
      else "") ++ ")"

/-- Model of `Subway::calculateSegment`, with the map passed (and returned)
explicitly so that `lines[targetLine]`'s potential mutation of the
member map is visible in the model. -/
noncomputable def calculateSegmentS (m : LineMap)
    (startName endName lineTag : String) : String × LineMap :=
  let targetLine := lineTag
  if (mapFind? m targetLine).isSome = false then
    ("Error: 존재하지 않는 노선(" ++ targetLine ++ ")", m)
  else
    let lm := mapIndex m targetLine
    match lm.1.findStation startName, lm.1.findStation endName with
    | some s1, some s2 =>
        (renderSegment startName endName lm.1 s1 s2, lm.2)
    | some _, none =>
        ("Error: 역을 찾을 수 없음 (" ++ startName ++ " or " ++ endName ++ ")", lm.2)
    | none, _ =>
        ("Error: 역을 찾을 수 없음 (" ++ startName ++ " or " ++ endName ++ ")", lm.2)

/-- The string result of `Subway::calculateSegment`. -/
noncomputable def calculateSegment (m : LineMap)
    (startName endName lineTag : String) : String :=
  (calculateSegmentS m startName endName lineTag).1

/-- The AREX line built exactly as `Subway::loadData` builds it. -/
def arexLine : Line :=
  (((Line.mk "arex" [] 60.0).addStation "계양역" 0.0 37.571 126.736).addStation
      "김포공항역" 6.6 37.562 126.801).addStation "마곡나루역" 9.5 37.567 126.829

/-- Line 9 built exactly as `Subway::loadData` builds it. -/
def line9Line : Line :=
  (((((((Line.mk "9" [] 47.0).addStation "개화" 0.0).addStation
      "김포공항역" 3.6 37.562 126.801).addStation "가양" 10.5).addStation
      "염창" 13.0).addStation "당산" 16.5).addStation
      "여의도" 19.0).addStation "노량진역" 22.0 37.514 126.942

/-- The member map `Subway::lines` after `loadData` has run. -/
def subwayLines : LineMap := [("arex", arexLine), ("9", line9Line)]

/-- Model of `std::string::find` for a character predicate: index of the first
match, `none` when there is no match. -/
def firstIdx? (p : Char → Bool) : List Char → Option Nat
  | [] => none
  | a :: as => if p a then some 0 else (firstIdx? p as).map (· + 1)

/-- Model of `parseToken`: split `"NAME(LINEID)"` into name and line id.  When
both markers occur but the first `)` precedes the first `(`, the C++
`substr` length underflows in `size_t` and is clamped, so the line id
becomes everything after the first `(`; that is the `else` branch. -/
def parseToken (t : String) : String × String :=
  let cs := t.data
  match firstIdx? (fun c => c == '(') cs, firstIdx? (fun c => c == ')') cs with
  | some op, some cp =>
      (String.mk (cs.take op),
        if op < cp then String.mk ((cs.drop (op + 1)).take (cp - op - 1))
        else String.mk (cs.drop (op + 1)))
  | _, _ => (t, "")

/-- Modelled from the claim's words (claim C2): the name is the
substring strictly before the first `(` and the line identifier is the
substring *between* the first `(` and the first `)` — which is empty
when the first `)` does not come after the first `(` (the natural-number
subtraction renders "between" as empty in that case). -/
def specParseToken (t : String) : String × String :=
  let cs := t.data
  match firstIdx? (fun c => c == '(') cs, firstIdx? (fun c => c == ')') cs with
  | some op, some cp =>
      (String.mk (cs.take op), String.mk ((cs.drop (op + 1)).take (cp - op - 1)))
  | _, _ => (t, "")

/-- One segment of `main`'s loop body: parse the current token for name
and line, the next token only for its name, and query the engine. -/
noncomputable def segOf (t1 t2 : String) : String :=
  calculateSegment subwayLines (parseToken t1).1 (parseToken t2).1 (parseToken t1).2

/-- The accumulation loop of `main` (`result += ", "` before every
segment except the first). -/
noncomputable def routeGo : List String → Bool → String → String
  | [], _, acc => acc
  | [_], _, acc => acc
  | t1 :: t2 :: rest, first, acc =>
      routeGo (t2 :: rest) false
        (acc ++ (if first then "" else ", ") ++ segOf t1 t2)

/-- Model of `main`'s route processing over the tokens `argv[1..argc-1]`. -/
noncomputable def computeRoute (tokens : List String) : String :=
  routeGo tokens true ""

/-- The list of per-segment results, one per adjacent token pair. -/
noncomputable def segResults (tokens : List String) : List String :=
  (tokens.zip tokens.tail).map (fun p => segOf p.1 p.2)

/-- Modelled from the spec's words: "concatenate successive segment
results with a fixed delimiter `", "`, preserving left-to-right
order". -/
def specJoinComma : List String → String
  | [] => ""
  | [s] => s
  | s :: t :: rest => s ++ ", " ++ specJoinComma (t :: rest)

/-! ### Helper lemmas: strings and first-index search -/

theorem String.mk_injective {a b : List Char} (h : String.mk a = String.mk b) :
    a = b := by
  injection h

theorem firstIdx?_append_sat (p : Char → Bool) (pre : List Char) (x : Char)
    (rest : List Char) (hpre : ∀ a ∈ pre, p a = false) (hx : p x = true) :
    firstIdx? p (pre ++ x :: rest) = some pre.length := by
  induction pre with
  | nil => simp [firstIdx?, hx]
  | cons a as ih =>
      have ha : p a = false := hpre a (by simp)
      have ih' := ih (fun b hb => hpre b (by simp [hb]))
      simp [firstIdx?, ha, ih']

theorem firstIdx?_some_lt (p : Char → Bool) (l : List Char) (i : Nat)
    (h : firstIdx? p l = some i) : i < l.length := by
  induction l generalizing i with
  | nil => simp [firstIdx?] at h
  | cons a as ih =>
      by_cases ha : p a
      · simp [firstIdx?, ha] at h
        simp [List.length_cons]
        omega
      · simp [firstIdx?, ha] at h
        obtain ⟨j, hj, rfl⟩ := h
        have := ih j hj
        simp [List.length_cons]
        omega

theorem firstIdx?_eq_none (p : Char → Bool) (l : List Char)
    (h : ∀ a ∈ l, p a = false) : firstIdx? p l = none := by
  induction l with
  | nil => rfl
  | cons a as ih =>
      have ha : p a = false := h a (by simp)
      simp [firstIdx?, ha, ih (fun b hb => h b (by simp [hb]))]

theorem firstIdx?_isSome_of_mem (c : Char) (l : List Char) (h : c ∈ l) :
    (firstIdx? (fun a => a == c) l).isSome := by
  induction l with
  | nil => simp at h
  | cons a as ih =>
      by_cases hac : a = c
      · simp [firstIdx?, hac]
      · have : c ∈ as := by
          rcases List.mem_cons.mp h with h1 | h1
          · exact absurd h1.symm hac
          · exact h1
        have := ih this
        by_cases hb : (a == c) = true
        · simp [firstIdx?, hb]
        · simp only [firstIdx?, hb, if_false]
          simpa using this

theorem firstIdx?_append_left (p : Char → Bool) (l1 l2 : List Char)
    (h : (firstIdx? p l1).isSome) :
    firstIdx? p (l1 ++ l2) = firstIdx? p l1 := by
  induction l1 with
  | nil => simp [firstIdx?] at h
  | cons a as ih =>
      rw [List.cons_append]
      by_cases ha : p a
      · simp [firstIdx?, ha]
      · simp only [firstIdx?, ha, if_false] at h ⊢
        have h' : (firstIdx? p as).isSome := by
          cases hcase : firstIdx? p as with
          | none => rw [hcase] at h; simp at h
          | some v => simp
        rw [ih h']

/-! ### Characterization of `parseToken` -/

theorem parseToken_no_marker (t : String)
    (h : '(' ∉ t.data ∨ ')' ∉ t.data) : parseToken t = (t, "") := by
  simp only [parseToken]
  rcases h with h | h
  · rw [firstIdx?_eq_none (fun c => c == '(') t.data
      (fun a ha => by simp; rintro rfl; exact h ha)]
  · rw [firstIdx?_eq_none (fun c => c == ')') t.data
      (fun a ha => by simp; rintro rfl; exact h ha)]
    cases firstIdx? (fun c => c == '(') t.data <;> rfl

theorem parseToken_split_ordered (pre mid post : List Char)
    (hpre_open : '(' ∉ pre) (hpre_close : ')' ∉ pre) (hmid : ')' ∉ mid) :
    parseToken (String.mk (pre ++ '(' :: (mid ++ ')' :: post))) =
      (String.mk pre, String.mk mid) := by
  have hop : firstIdx? (fun c => c == '(')
      (pre ++ '(' :: (mid ++ ')' :: post)) = some pre.length :=
    firstIdx?_append_sat _ pre _ _
      (fun a ha => by simp; rintro rfl; exact hpre_open ha) (by simp)
  have hsplit : pre ++ '(' :: (mid ++ ')' :: post) =
      (pre ++ '(' :: mid) ++ ')' :: post := by simp
  have hcp : firstIdx? (fun c => c == ')')
      (pre ++ '(' :: (mid ++ ')' :: post)) =
      some (pre.length + mid.length + 1) := by
    have hall : ∀ a ∈ pre ++ '(' :: mid, (fun c => c == ')') a = false := by
      intro a ha
      simp only [beq_eq_false_iff_ne, ne_eq]
      rintro rfl
      rcases List.mem_append.mp ha with h1 | h1
      · exact hpre_close h1
      · rcases List.mem_cons.mp h1 with h2 | h2
        · exact absurd h2 (by decide)
        · exact hmid h2
    have hv := firstIdx?_append_sat (fun c => c == ')') (pre ++ '(' :: mid)
      ')' post hall (by simp)
    have hlen : (pre ++ '(' :: mid).length = pre.length + mid.length + 1 := by
      simp [List.length_append, List.length_cons]
      omega
    rw [hsplit]
    rw [hv, hlen]
  simp only [parseToken, hop, hcp]
  have hlt : pre.length < pre.length + mid.length + 1 := by omega
  rw [if_pos hlt]
  refine congrArg₂ Prod.mk ?_ ?_
  · refine congrArg String.mk ?_
    have h1 : (pre ++ '(' :: (mid ++ ')' :: post)).take pre.length =
        (pre ++ ('(' :: (mid ++ ')' :: post))).take pre.length := rfl
    rw [h1, List.take_left]
  · refine congrArg String.mk ?_
    have h2 : pre ++ '(' :: (mid ++ ')' :: post) =
        (pre ++ ['(']) ++ (mid ++ ')' :: post) := by simp
    have h3 : pre.length + 1 = (pre ++ ['(']).length := by simp
    rw [h2, h3, List.drop_left]
    have h4 : pre.length + mid.length + 1 - pre.length - 1 = mid.length := by
      omega
    rw [h4]
    exact List.take_left mid (')' :: post)

theorem parseToken_split_reversed (pre post : List Char)
    (hpre_open : '(' ∉ pre) (hpre_close : ')' ∈ pre) :
    parseToken (String.mk (pre ++ '(' :: post)) =
      (String.mk pre, String.mk post) := by
  have hop : firstIdx? (fun c => c == '(') (pre ++ '(' :: post) =
      some pre.length :=
    firstIdx?_append_sat _ pre _ _
      (fun a ha => by simp; rintro rfl; exact hpre_open ha) (by simp)
  have hpre_some : (firstIdx? (fun a => a == ')') pre).isSome :=
    firstIdx?_isSome_of_mem ')' pre hpre_close
  obtain ⟨cp, hcp0⟩ := Option.isSome_iff_exists.mp hpre_some
  have hcp : firstIdx? (fun c => c == ')') (pre ++ '(' :: post) = some cp := by
    rw [firstIdx?_append_left _ _ _ (by simp [hcp0])]
    exact hcp0
  have hcplt : cp < pre.length := firstIdx?_some_lt _ _ _ hcp0
  simp only [parseToken, hop, hcp]
  rw [if_neg (by omega)]
  refine congrArg₂ Prod.mk ?_ ?_
  · refine congrArg String.mk ?_
    exact List.take_left pre ('(' :: post)
  · refine congrArg String.mk ?_
    have h2 : pre ++ '(' :: post = (pre ++ ['(']) ++ post := by simp
    have h3 : pre.length + 1 = (pre ++ ['(']).length := by simp
    rw [h2, h3, List.drop_left]

theorem parseToken_ne_self_of_both (t : String)
    (h1 : '(' ∈ t.data) (h2 : ')' ∈ t.data) : parseToken t ≠ (t, "") := by
  obtain ⟨op, hop⟩ := Option.isSome_iff_exists.mp
    (firstIdx?_isSome_of_mem '(' t.data h1)
  obtain ⟨cp, hcp⟩ := Option.isSome_iff_exists.mp
    (firstIdx?_isSome_of_mem ')' t.data h2)
  have hoplt : op < t.data.length := firstIdx?_some_lt _ _ _ hop
  simp only [parseToken, hop, hcp]
  intro h
  have hfst : String.mk (t.data.take op) = t := congrArg Prod.fst h
  cases t with
  | mk cs =>
      have : cs.take op = cs := String.mk_injective hfst
      have hlen := congrArg List.length this
      rw [List.length_take] at hlen
      simp at hoplt hlen
      omega

/-! ### Path lemmas for `calculateSegment` -/

theorem calculateSegmentS_found (m : LineMap) (s e l : String) (L : Line)
    (s1 s2 : Station) (hL : lookupLine m l = some L)
    (h1 : L.findStation s = some s1) (h2 : L.findStation e = some s2) :
    calculateSegmentS m s e l = (renderSegment s e L s1 s2, m) := by
  obtain ⟨p, hp, hpL⟩ := Option.map_eq_some'.mp hL
  simp only [calculateSegmentS, mapIndex, hp, Option.isSome_some]
  simp only [hpL, h1, h2]
  simp

theorem calculateSegment_found (m : LineMap) (s e l : String) (L : Line)
    (s1 s2 : Station) (hL : lookupLine m l = some L)
    (h1 : L.findStation s = some s1) (h2 : L.findStation e = some s2) :
    calculateSegment m s e l = renderSegment s e L s1 s2 := by
  rw [calculateSegment, calculateSegmentS_found m s e l L s1 s2 hL h1 h2]

theorem calculateSegmentS_noline (m : LineMap) (s e l : String)
    (h : mapFind? m l = none) :
    calculateSegmentS m s e l =
      ("Error: 존재하지 않는 노선(" ++ l ++ ")", m) := by
  simp only [calculateSegmentS, h, Option.isSome_none]
  simp

theorem calculateSegment_noline (m : LineMap) (s e l : String)
    (h : mapFind? m l = none) :
    calculateSegment m s e l = "Error: 존재하지 않는 노선(" ++ l ++ ")" := by
  rw [calculateSegment, calculateSegmentS_noline m s e l h]

theorem calculateSegmentS_nostation (m : LineMap) (s e l : String) (L : Line)
    (hL : lookupLine m l = some L)
    (h : L.findStation s = none ∨ L.findStation e = none) :
    calculateSegmentS m s e l =
      ("Error: 역을 찾을 수 없음 (" ++ s ++ " or " ++ e ++ ")", m) := by
  obtain ⟨p, hp, hpL⟩ := Option.map_eq_some'.mp hL
  simp only [calculateSegmentS, mapIndex, hp, Option.isSome_some, hpL]
  cases hs1 : L.findStation s with
  | none => rfl
  | some v1 =>
      cases hs2 : L.findStation e with
      | none => rfl
      | some v2 =>
          rcases h with h | h
          · rw [hs1] at h; cases h
          · rw [hs2] at h; cases h

theorem calculateSegment_nostation (m : LineMap) (s e l : String) (L : Line)
    (hL : lookupLine m l = some L)
    (h : L.findStation s = none ∨ L.findStation e = none) :
    calculateSegment m s e l =
      "Error: 역을 찾을 수 없음 (" ++ s ++ " or " ++ e ++ ")" := by
  rw [calculateSegment, calculateSegmentS_nostation m s e l L hL h]

theorem calculateSegmentS_preserves (m : LineMap) (s e l : String) :
    (calculateSegmentS m s e l).2 = m := by
  cases hfind : mapFind? m l with
  | none =>
      simp only [calculateSegmentS, hfind, Option.isSome_none]
      simp
  | some p =>
      simp only [calculateSegmentS, hfind, Option.isSome_some, mapIndex, hfind]
      cases p.2.findStation s <;> cases p.2.findStation e <;> simp

/-! ### Rounding and rendering lemmas -/

theorem roundAwayQ_close (x : ℚ) : |x - (roundAwayQ x : ℚ)| ≤ 1 / 2 := by
  rw [roundAwayQ]
  by_cases hx : 0 ≤ x
  · rw [if_pos hx]
    have hle := Int.floor_le (x + 1 / 2)
    have hlt := Int.lt_floor_add_one (x + 1 / 2)
    rw [abs_le]
    constructor <;> [linarith; linarith]
  · rw [if_neg hx]
    have hle := Int.floor_le (-x + 1 / 2)
    have hlt := Int.lt_floor_add_one (-x + 1 / 2)
    rw [abs_le]
    push_cast
    constructor <;> [linarith; linarith]

theorem renderSegment_no_straight (s e : String) (L : Line) (s1 s2 : Station)
    (h : calcStraightDist s1.lat s1.lon s2.lat s2.lon = 0) :
    renderSegment s e L s1 s2 =
      formatFixed1Q (segDistance s1 s2) ++ "km(" ++
        toString (roundAwayQ (segDistance s1 s2 / L.avgSpeed * 60)) ++
        "분, " ++ s ++ "-" ++ e ++ ")" := by
  rw [renderSegment]
  simp only [h, lt_irrefl, if_false, String.append_empty]

/-! ### Sign lemmas for the haversine model -/

theorem atan2_nonneg (y x : ℝ) (hy : 0 ≤ y) (hx : 0 ≤ x) : 0 ≤ atan2 y x := by
  rw [atan2]
  by_cases h1 : 0 < x
  · rw [if_pos h1]
    rw [← Real.arctan_zero]
    exact Real.arctan_strictMono.monotone (div_nonneg hy hx)
  · rw [if_neg h1, if_neg (by linarith [lt_of_le_of_ne hx])]
    by_cases h3 : 0 < y
    · rw [if_pos h3]
      linarith [Real.pi_pos]
    · rw [if_neg h3, if_neg (by linarith)]

theorem atan2_pos (y x : ℝ) (hy : 0 < y) (hx : 0 ≤ x) : 0 < atan2 y x := by
  rw [atan2]
  by_cases h1 : 0 < x
  · rw [if_pos h1]
    rw [← Real.arctan_zero]
    exact Real.arctan_strictMono (div_pos hy h1)
  · rw [if_neg h1, if_neg (by linarith [lt_of_le_of_ne hx])]
    rw [if_pos hy]
    linarith [Real.pi_pos]

theorem calcStraightDist_nonneg (lat1 lon1 lat2 lon2 : ℚ) :
    0 ≤ calcStraightDist lat1 lon1 lat2 lon2 := by
  by_cases h : lat1 = 0 ∨ lat2 = 0
  · simp only [calcStraightDist, if_pos h]
    norm_num
  · simp only [calcStraightDist, if_neg h]
    refine mul_nonneg (by norm_num [Rearth]) ?_
    refine mul_nonneg (by norm_num) ?_
    exact atan2_nonneg _ _ (Real.sqrt_nonneg _) (Real.sqrt_nonneg _)

theorem calcStraightDist_sentinel (lat1 lon1 lat2 lon2 : ℚ)
    (h : lat1 = 0 ∨ lat2 = 0) : calcStraightDist lat1 lon1 lat2 lon2 = 0 := by
  rw [calcStraightDist, if_pos h]
  norm_num

/-! ### Route loop lemmas -/

theorem segResults_nil : segResults [] = [] := rfl

theorem segResults_single (t : String) : segResults [t] = [] := rfl

theorem segResults_cons_cons (t1 t2 : String) (rest : List String) :
    segResults (t1 :: t2 :: rest) = segOf t1 t2 :: segResults (t2 :: rest) := by
  simp [segResults]

theorem segResults_length (ts : List String) :
    (segResults ts).length = ts.length - 1 := by
  cases ts with
  | nil => rfl
  | cons t rest =>
      simp [segResults, List.length_zip]

theorem segResults_getD (ts : List String) (i : Nat) (h : i + 1 < ts.length) :
    (segResults ts).getD i "" = segOf (ts.getD i "") (ts.getD (i + 1) "") := by
  induction ts generalizing i with
  | nil => simp at h
  | cons t1 rest ih =>
      cases rest with
      | nil => simp at h
      | cons t2 rest' =>
          rw [segResults_cons_cons]
          cases i with
          | zero => rfl
          | succ j =>
              have hj : j + 1 < (t2 :: rest').length := by
                simp at h ⊢
                omega
              have := ih j hj
              simpa using this

theorem routeGo_cons_cons (rest : List String) :
    ∀ t1 t2 acc, routeGo (t1 :: t2 :: rest) false acc =
      acc ++ ", " ++ specJoinComma (segResults (t1 :: t2 :: rest)) := by
  induction rest with
  | nil =>
      intro t1 t2 acc
      rw [routeGo, routeGo]
      rw [segResults_cons_cons, segResults_single]
      simp [specJoinComma]
  | cons t3 rest' ih =>
      intro t1 t2 acc
      rw [routeGo, ih t2 t3]
      rw [segResults_cons_cons t1 t2, segResults_cons_cons t2 t3]
      have hJ : specJoinComma (segOf t1 t2 ::
          (segOf t2 t3 :: segResults (t3 :: rest'))) =
          segOf t1 t2 ++ ", " ++
            specJoinComma (segOf t2 t3 :: segResults (t3 :: rest')) := rfl
      rw [hJ]
      rw [← segResults_cons_cons t2 t3]
      simp [String.append_assoc]

theorem computeRoute_eq_join (ts : List String) (h : 2 ≤ ts.length) :
    computeRoute ts = specJoinComma (segResults ts) := by
  match ts, h with
  | t1 :: t2 :: rest, _ =>
      cases rest with
      | nil =>
          rw [computeRoute, routeGo, routeGo]
          rw [segResults_cons_cons, segResults_single]
          simp [specJoinComma]
      | cons t3 rest' =>
          rw [computeRoute, routeGo, routeGo_cons_cons rest' t2 t3]
          rw [segResults_cons_cons t1 t2]
          have hJ : specJoinComma (segOf t1 t2 :: segResults (t2 :: t3 :: rest')) =
              segOf t1 t2 ++ ", " ++
                specJoinComma (segResults (t2 :: t3 :: rest')) := by
            rw [segResults_cons_cons t2 t3]
            rfl
          rw [hJ]
          simp

/-! ### Claim theorems -/

/-- C10: segment computation never inserts, removes, or modifies a line
or station: for every invocation of `calculateSegment` with any
arguments — unknown lines and unknown station names included — the
network model is identical before and after the call (the lookup guard
prevents the default-insertion of `operator[]` from ever firing). -/
theorem claim_C10 (m : LineMap) (s e l : String) :
    (calculateSegmentS m s e l).2 = m :=
  calculateSegmentS_preserves m s e l

/-- C10 witness: a concrete invocation with an unknown line leaves the
loaded map untouched. -/
theorem claim_C10_witness :
    (calculateSegmentS subwayLines "계양역" "노량진역" "99").2 = subwayLines :=
  claim_C10 subwayLines "계양역" "노량진역" "99"

/-- C9: `parseToken` is total — every token parses to some name/line
pair — and the "no line tag" branch (returning the whole token with an
empty line) is taken exactly when at least one of the two markers is
absent; any token containing both markers is accepted (it does not fall
back to the no-tag result), regardless of the markers' relative
order. -/
theorem claim_C9 (t : String) :
    (∃ nm ln, parseToken t = (nm, ln)) ∧
    (parseToken t = (t, "") ↔ ('(' ∉ t.data ∨ ')' ∉ t.data)) := by
  refine ⟨⟨(parseToken t).1, (parseToken t).2, rfl⟩, ?_, parseToken_no_marker t⟩
  intro heq
  by_contra hcon
  push_neg at hcon
  exact parseToken_ne_self_of_both t hcon.1 hcon.2 heq

/-- C9 witness: a reversed-parenthesis token containing both markers is
still parsed (not into the no-tag fallback), and a plain token falls
back to the no-tag result. -/
theorem claim_C9_witness :
    parseToken ")a(b" ≠ (")a(b", "") ∧ parseToken "Station" = ("Station", "") := by
  constructor
  · intro h
    have h2 := (claim_C9 ")a(b").2.mp h
    rcases h2 with h2 | h2 <;> exact h2 (by decide)
  · exact (claim_C9 "Station").2.mpr (by decide)

/-- C2 counterexample: for the token `")a(b"` (both markers present,
but the first `)` precedes the first `(`), the code's parser yields the
line identifier `"b"` — the whole suffix after `(` via `size_t`
underflow in `substr` — whereas the claimed "substring between the
first `(` and the first `)`" is empty. -/
theorem claim_C2_counterexample :
    parseToken ")a(b" = (")a", "b") ∧
    specParseToken ")a(b" = (")a", "") ∧
    parseToken ")a(b" ≠ specParseToken ")a(b" := by
  refine ⟨by decide, by decide, by decide⟩

/-- C2 (amended): when the token contains both markers and the first
`(` precedes the first `)`, the name is the substring strictly before
the first `(` and the line identifier is the substring between the
first `(` and the first `)`; when the first `)` precedes the first `(`,
the name is still the substring before the first `(` but the line
identifier is the whole remainder after the first `(`; when either
marker is absent, the name is the whole token and the line identifier
is empty.  `parseToken "Station(line9)" = ("Station", "line9")` and
`parseToken "Station" = ("Station", "")`. -/
theorem claim_C2 (t : String) :
    (∀ pre mid post : List Char,
        t.data = pre ++ '(' :: (mid ++ ')' :: post) →
        '(' ∉ pre → ')' ∉ pre → ')' ∉ mid →
        parseToken t = (String.mk pre, String.mk mid)) ∧
    (∀ pre post : List Char,
        t.data = pre ++ '(' :: post → '(' ∉ pre → ')' ∈ pre →
        parseToken t = (String.mk pre, String.mk post)) ∧
    ('(' ∉ t.data ∨ ')' ∉ t.data → parseToken t = (t, "")) ∧
    parseToken "Station(line9)" = ("Station", "line9") ∧
    parseToken "Station" = ("Station", "") := by
  refine ⟨?_, ?_, parseToken_no_marker t, by decide, by decide⟩
  · intro pre mid post hdata hp1 hp2 hm
    cases t with
    | mk cs =>
        have : cs = pre ++ '(' :: (mid ++ ')' :: post) := hdata
        subst this
        exact parseToken_split_ordered pre mid post hp1 hp2 hm
  · intro pre post hdata hp1 hp2
    cases t with
    | mk cs =>
        have : cs = pre ++ '(' :: post := hdata
        subst this
        exact parseToken_split_reversed pre post hp1 hp2

/-- C2 witness: the amended characterization applied to the well-formed
token `"Station(line9)"` and to the reversed-marker token `")a(b"`. -/
theorem claim_C2_witness :
    parseToken "Station(line9)" = ("Station", "line9") ∧
    parseToken ")a(b" = (")a", "b") := by
  constructor
  · exact (claim_C2 "Station(line9)").1 "Station".data "line9".data []
      (by decide) (by decide) (by decide) (by decide)
  · exact (claim_C2 ")a(b").2.1 ")a".data "b".data
      (by decide) (by decide) (by decide)

/-- C1: for a token sequence of length `n ≥ 2`, the route report is the
left-to-right concatenation, joined by the fixed delimiter `", "`, of
exactly `n - 1` segment results, where segment `i` is computed from the
name of token `i`, the name of token `i + 1`, and the line tag of token
`i` (the line tag of token `i + 1` does not enter segment `i`). -/
theorem claim_C1 (ts : List String) (h : 2 ≤ ts.length) :
    computeRoute ts = specJoinComma (segResults ts) ∧
    (segResults ts).length = ts.length - 1 ∧
    ∀ i, i + 1 < ts.length →
      (segResults ts).getD i "" =
        calculateSegment subwayLines (parseToken (ts.getD i "")).1
          (parseToken (ts.getD (i + 1) "")).1
          (parseToken (ts.getD i "")).2 := by
  refine ⟨computeRoute_eq_join ts h, segResults_length ts, ?_⟩
  intro i hi
  rw [segResults_getD ts i hi]
  rfl

/-- C1 witness: the three-token itinerary `A(l1) B(l2) C` produces
exactly two segment results, the first computed with line tag `l1` and
the second with line tag `l2`. -/
theorem claim_C1_witness :
    computeRoute ["A(l1)", "B(l2)", "C"] =
      specJoinComma (segResults ["A(l1)", "B(l2)", "C"]) ∧
    (segResults ["A(l1)", "B(l2)", "C"]).length = 2 ∧
    (segResults ["A(l1)", "B(l2)", "C"]).getD 0 "" =
      calculateSegment subwayLines "A" "B" "l1" ∧
    (segResults ["A(l1)", "B(l2)", "C"]).getD 1 "" =
      calculateSegment subwayLines "B" "C" "l2" := by
  obtain ⟨h1, h2, h3⟩ := claim_C1 ["A(l1)", "B(l2)", "C"] (by decide)
  refine ⟨h1, h2, ?_, ?_⟩
  · have := h3 0 (by decide)
    simpa using this
  · have := h3 1 (by decide)
    simpa using this

/-- C3: an unknown line yields a descriptive error string naming the
missing line; a known line with an unresolved station name yields a
descriptive error string; in both cases a string is returned (no fatal
condition), and the orchestrator embeds the error string in the report
in place of the segment result and keeps computing subsequent segments:
in the concrete three-token run below, the first segment's line error
appears in the report followed by the still-computed second segment. -/
theorem claim_C3 :
    (∀ (m : LineMap) (s e l : String), mapFind? m l = none →
        calculateSegment m s e l = "Error: 존재하지 않는 노선(" ++ l ++ ")") ∧
    (∀ (m : LineMap) (s e l : String) (L : Line), lookupLine m l = some L →
        (L.findStation s = none ∨ L.findStation e = none) →
        calculateSegment m s e l =
          "Error: 역을 찾을 수 없음 (" ++ s ++ " or " ++ e ++ ")") ∧
    computeRoute ["계양역(nope)", "계양역(arex)", "마곡나루역"] =
      "Error: 존재하지 않는 노선(nope)" ++ ", " ++
        calculateSegment subwayLines "계양역" "마곡나루역" "arex" := by
  refine ⟨calculateSegment_noline, calculateSegment_nostation, ?_⟩
  have h := computeRoute_eq_join ["계양역(nope)", "계양역(arex)", "마곡나루역"]
    (by decide)
  rw [h, segResults_cons_cons, segResults_cons_cons, segResults_single]
  have h1 : segOf "계양역(nope)" "계양역(arex)" =
      calculateSegment subwayLines "계양역" "계양역" "nope" := by
    rw [segOf]
    have hp1 : parseToken "계양역(nope)" = ("계양역", "nope") := by decide
    have hp2 : parseToken "계양역(arex)" = ("계양역", "arex") := by decide
    rw [hp1, hp2]
  have h2 : segOf "계양역(arex)" "마곡나루역" =
      calculateSegment subwayLines "계양역" "마곡나루역" "arex" := by
    rw [segOf]
    have hp1 : parseToken "계양역(arex)" = ("계양역", "arex") := by decide
    have hp2 : parseToken "마곡나루역" = ("마곡나루역", "") := by decide
    rw [hp1, hp2]
  rw [h1, h2]
  have h3 : calculateSegment subwayLines "계양역" "계양역" "nope" =
      "Error: 존재하지 않는 노선(" ++ "nope" ++ ")" :=
    calculateSegment_noline subwayLines "계양역" "계양역" "nope" rfl
  rw [h3]
  rfl

/-- C3 witness: the two error branches applied to concrete queries on
the loaded network. -/
theorem claim_C3_witness :
    calculateSegment subwayLines "계양역" "노량진역" "99" =
      "Error: 존재하지 않는 노선(" ++ "99" ++ ")" ∧
    calculateSegment subwayLines "서울역" "노량진역" "9" =
      "Error: 역을 찾을 수 없음 (" ++ "서울역" ++ " or " ++ "노량진역" ++ ")" := by
  constructor
  · exact claim_C3.1 subwayLines "계양역" "노량진역" "99" rfl
  · exact claim_C3.2.1 subwayLines "서울역" "노량진역" "9" line9Line rfl
      (Or.inl rfl)

/-- C8 counterexample: the `StationNotFound` error string does not
identify which of the two names failed to resolve — a query where only
the end name is missing (`계양역`/`개화` on line `arex`) and a query
where only the start name is missing (`계양역`/`개화` on line `9`)
produce the identical error string. -/
theorem claim_C8_counterexample :
    (arexLine.findStation "계양역").isSome = true ∧
    arexLine.findStation "개화" = none ∧
    line9Line.findStation "계양역" = none ∧
    (line9Line.findStation "개화").isSome = true ∧
    calculateSegment subwayLines "계양역" "개화" "arex" =
      calculateSegment subwayLines "계양역" "개화" "9" := by
  refine ⟨rfl, rfl, rfl, rfl, ?_⟩
  rw [calculateSegment_nostation subwayLines "계양역" "개화" "arex" arexLine rfl
      (Or.inr rfl)]
  rw [calculateSegment_nostation subwayLines "계양역" "개화" "9" line9Line rfl
      (Or.inl rfl)]

/-- C8 (amended): when the line exists but a station name fails to
resolve, the error string reports both queried names, joined by
`" or "`, in query order — the same string regardless of whether the
start name, the end name, or both were the ones that failed. -/
theorem claim_C8 (m : LineMap) (s e l : String) (L : Line)
    (hL : lookupLine m l = some L)
    (h : L.findStation s = none ∨ L.findStation e = none) :
    calculateSegment m s e l =
      "Error: 역을 찾을 수 없음 (" ++ s ++ " or " ++ e ++ ")" :=
  calculateSegment_nostation m s e l L hL h

/-- C8 witness: the amended statement at a query whose end name is
missing from the line. -/
theorem claim_C8_witness :
    calculateSegment subwayLines "계양역" "서울역" "arex" =
      "Error: 역을 찾을 수 없음 (" ++ "계양역" ++ " or " ++ "서울역" ++ ")" :=
  claim_C8 subwayLines "계양역" "서울역" "arex" arexLine rfl (Or.inr rfl)

/-- C4: every successful segment computation renders
`"{trackDistance}km({timeMinutes}분, {start}-{end}[, 직선 {straightDistance}km])"`,
where the displayed minutes are `(trackDistance / avgSpeed) * 60`
rounded to the nearest integer (within `1/2` of the exact value), both
distances are formatted to one decimal digit, and the straight-line
clause is omitted exactly when the straight-line distance is `0`. -/
theorem claim_C4 (m : LineMap) (s e l : String) (L : Line) (s1 s2 : Station)
    (hL : lookupLine m l = some L) (h1 : L.findStation s = some s1)
    (h2 : L.findStation e = some s2) :
    calculateSegment m s e l =
      formatFixed1Q (segDistance s1 s2) ++ "km(" ++
        toString (roundAwayQ (segDistance s1 s2 / L.avgSpeed * 60)) ++
        "분, " ++ s ++ "-" ++ e ++
        (if calcStraightDist s1.lat s1.lon s2.lat s2.lon = 0 then ""
         else ", 직선 " ++
           formatFixed1R (calcStraightDist s1.lat s1.lon s2.lat s2.lon) ++
           "km") ++ ")" ∧
    |segDistance s1 s2 / L.avgSpeed * 60 -
        (roundAwayQ (segDistance s1 s2 / L.avgSpeed * 60) : ℚ)| ≤ 1 / 2 := by
  refine ⟨?_, roundAwayQ_close _⟩
  rw [calculateSegment_found m s e l L s1 s2 hL h1 h2, renderSegment]
  by_cases hsd : calcStraightDist s1.lat s1.lon s2.lat s2.lon = 0
  · rw [if_pos hsd, hsd]
    rw [if_neg (lt_irrefl (0 : ℝ))]
  · have hpos : 0 < calcStraightDist s1.lat s1.lon s2.lat s2.lon :=
      lt_of_le_of_ne (calcStraightDist_nonneg _ _ _ _) (Ne.symm hsd)
    rw [if_neg hsd, if_pos hpos]

/-- C4 witness: the success path on line `9` from `개화` to `가양`
(both without coordinates, so the straight-line clause is omitted
there by the `= 0` case of the characterization). -/
theorem claim_C4_witness :
    calculateSegment subwayLines "개화" "가양" "9" =
      formatFixed1Q (segDistance ⟨"개화", 0.0, 0, 0⟩ ⟨"가양", 10.5, 0, 0⟩) ++
        "km(" ++
        toString (roundAwayQ (segDistance ⟨"개화", 0.0, 0, 0⟩
          ⟨"가양", 10.5, 0, 0⟩ / line9Line.avgSpeed * 60)) ++
        "분, " ++ "개화" ++ "-" ++ "가양" ++
        (if calcStraightDist (0 : ℚ) (0 : ℚ) (0 : ℚ) (0 : ℚ) = 0 then ""
         else ", 직선 " ++ formatFixed1R (calcStraightDist 0 0 0 0) ++ "km") ++
        ")" ∧
    |segDistance ⟨"개화", 0.0, 0, 0⟩ ⟨"가양", 10.5, 0, 0⟩ /
        line9Line.avgSpeed * 60 -
        (roundAwayQ (segDistance ⟨"개화", 0.0, 0, 0⟩ ⟨"가양", 10.5, 0, 0⟩ /
          line9Line.avgSpeed * 60) : ℚ)| ≤ 1 / 2 :=
  claim_C4 subwayLines "개화" "가양" "9" line9Line
    ⟨"개화", 0.0, 0, 0⟩ ⟨"가양", 10.5, 0, 0⟩ rfl rfl rfl

/-- C5: for two stations resolved on the same line, the computed track
distance is the absolute difference of their cumulative distances, it
is symmetric in the two stations, and swapping the start and end names
leaves the rendered track-distance prefix of the result unchanged. -/
theorem claim_C5 (m : LineMap) (s e l : String) (L : Line) (s1 s2 : Station)
    (hL : lookupLine m l = some L) (h1 : L.findStation s = some s1)
    (h2 : L.findStation e = some s2) :
    segDistance s1 s2 = |s1.distFromStart - s2.distFromStart| ∧
    segDistance s1 s2 = segDistance s2 s1 ∧
    (∃ r1, calculateSegment m s e l =
      formatFixed1Q (segDistance s1 s2) ++ "km(" ++ r1) ∧
    (∃ r2, calculateSegment m e s l =
      formatFixed1Q (segDistance s1 s2) ++ "km(" ++ r2) := by
  have hsym : segDistance s1 s2 = segDistance s2 s1 := by
    rw [segDistance, segDistance, abs_sub_comm]
  refine ⟨rfl, hsym, ?_, ?_⟩
  · refine ⟨toString (roundAwayQ (segDistance s1 s2 / L.avgSpeed * 60)) ++
      "분, " ++ s ++ "-" ++ e ++
      (if 0 < calcStraightDist s1.lat s1.lon s2.lat s2.lon
        then ", 직선 " ++
          formatFixed1R (calcStraightDist s1.lat s1.lon s2.lat s2.lon) ++ "km"
        else "") ++ ")", ?_⟩
    rw [calculateSegment_found m s e l L s1 s2 hL h1 h2, renderSegment]
    simp [String.append_assoc]
  · refine ⟨toString (roundAwayQ (segDistance s2 s1 / L.avgSpeed * 60)) ++
      "분, " ++ e ++ "-" ++ s ++
      (if 0 < calcStraightDist s2.lat s2.lon s1.lat s1.lon
        then ", 직선 " ++
          formatFixed1R (calcStraightDist s2.lat s2.lon s1.lat s1.lon) ++ "km"
        else "") ++ ")", ?_⟩
    rw [calculateSegment_found m e s l L s2 s1 hL h2 h1, renderSegment, hsym]
    simp [String.append_assoc]

/-- C5 witness: swapping `계양역` and `마곡나루역` on line `arex`
leaves the computed track distance (and its rendered prefix)
unchanged. -/
theorem claim_C5_witness :
    segDistance ⟨"계양역", 0.0, 37.571, 126.736⟩
        ⟨"마곡나루역", 9.5, 37.567, 126.829⟩ =
      |(0.0 : ℚ) - 9.5| ∧
    segDistance ⟨"계양역", 0.0, 37.571, 126.736⟩
        ⟨"마곡나루역", 9.5, 37.567, 126.829⟩ =
      segDistance ⟨"마곡나루역", 9.5, 37.567, 126.829⟩
        ⟨"계양역", 0.0, 37.571, 126.736⟩ ∧
    (∃ r1, calculateSegment subwayLines "계양역" "마곡나루역" "arex" =
      formatFixed1Q (segDistance ⟨"계양역", 0.0, 37.571, 126.736⟩
        ⟨"마곡나루역", 9.5, 37.567, 126.829⟩) ++ "km(" ++ r1) ∧
    (∃ r2, calculateSegment subwayLines "마곡나루역" "계양역" "arex" =
      formatFixed1Q (segDistance ⟨"계양역", 0.0, 37.571, 126.736⟩
        ⟨"마곡나루역", 9.5, 37.567, 126.829⟩) ++ "km(" ++ r2) :=
  claim_C5 subwayLines "계양역" "마곡나루역" "arex" arexLine
    ⟨"계양역", 0.0, 37.571, 126.736⟩ ⟨"마곡나루역", 9.5, 37.567, 126.829⟩
    rfl rfl rfl

/-- C6: the great-circle distance function returns `0` whenever either
latitude operand is exactly `0` (the "no coordinate" sentinel), without
evaluating the haversine formula; consequently a segment between
stations of which either lacks coordinates renders without the
straight-line clause. -/
theorem claim_C6 :
    (∀ lat1 lon1 lat2 lon2 : ℚ, lat1 = 0 ∨ lat2 = 0 →
        calcStraightDist lat1 lon1 lat2 lon2 = 0) ∧
    (∀ (m : LineMap) (s e l : String) (L : Line) (s1 s2 : Station),
        lookupLine m l = some L → L.findStation s = some s1 →
        L.findStation e = some s2 → (s1.lat = 0 ∨ s2.lat = 0) →
        calculateSegment m s e l =
          formatFixed1Q (segDistance s1 s2) ++ "km(" ++
            toString (roundAwayQ (segDistance s1 s2 / L.avgSpeed * 60)) ++
            "분, " ++ s ++ "-" ++ e ++ ")") := by
  refine ⟨calcStraightDist_sentinel, ?_⟩
  intro m s e l L s1 s2 hL h1 h2 hlat
  rw [calculateSegment_found m s e l L s1 s2 hL h1 h2]
  exact renderSegment_no_straight s e L s1 s2
    (calcStraightDist_sentinel s1.lat s1.lon s2.lat s2.lon hlat)

/-- C6 witness: the sentinel branch at latitude `0`, and the clause-free
rendering for `개화`–`가양` on line `9`, both of which lack
coordinates. -/
theorem claim_C6_witness :
    calcStraightDist 0 1 2 3 = 0 ∧
    calculateSegment subwayLines "개화" "가양" "9" =
      formatFixed1Q (segDistance ⟨"개화", 0.0, 0, 0⟩ ⟨"가양", 10.5, 0, 0⟩) ++
        "km(" ++
        toString (roundAwayQ (segDistance ⟨"개화", 0.0, 0, 0⟩
          ⟨"가양", 10.5, 0, 0⟩ / line9Line.avgSpeed * 60)) ++
        "분, " ++ "개화" ++ "-" ++ "가양" ++ ")" := by
  constructor
  · exact claim_C6.1 0 1 2 3 (Or.inl rfl)
  · exact claim_C6.2 subwayLines "개화" "가양" "9" line9Line
      ⟨"개화", 0.0, 0, 0⟩ ⟨"가양", 10.5, 0, 0⟩ rfl rfl rfl (Or.inl rfl)

/-- The straight-line distance of the AREX example segment is strictly
positive, so its rendering includes the straight-line clause. -/
theorem arex_straight_pos : 0 < calcStraightDist 37.571 126.736 37.567 126.829 := by
  have hcond : ¬((37.571 : ℚ) = 0 ∨ (37.567 : ℚ) = 0) := by norm_num
  simp only [calcStraightDist, hcond, if_false]
  push_cast
  have hpi := Real.pi_gt_d6
  have hsinlt : Real.sin (toRad ((37.567 : ℝ) - 37.571) / 2) < 0 := by
    apply Real.sin_neg_of_neg_of_neg_pi_lt
    · rw [toRad]
      norm_num [cppPI]
    · rw [toRad]
      have h1 : (-1 : ℝ) < ((37.567 : ℝ) - 37.571) * cppPI / 180 / 2 := by
        norm_num [cppPI]
      linarith
  have hS : 0 < Real.sin (toRad ((37.567 : ℝ) - 37.571) / 2) *
      Real.sin (toRad ((37.567 : ℝ) - 37.571) / 2) :=
    mul_pos_of_neg_of_neg hsinlt hsinlt
  have hcos1 : 0 < Real.cos (toRad (37.571 : ℝ)) := by
    apply Real.cos_pos_of_mem_Ioo
    refine Set.mem_Ioo.mpr ⟨?_, ?_⟩
    · have h0 : (0 : ℝ) < toRad 37.571 := by rw [toRad]; norm_num [cppPI]
      have := Real.pi_pos
      linarith
    · rw [toRad]
      have h1 : (37.571 : ℝ) * cppPI / 180 < 1.570796 := by norm_num [cppPI]
      linarith
  have hcos2 : 0 < Real.cos (toRad (37.567 : ℝ)) := by
    apply Real.cos_pos_of_mem_Ioo
    refine Set.mem_Ioo.mpr ⟨?_, ?_⟩
    · have h0 : (0 : ℝ) < toRad 37.567 := by rw [toRad]; norm_num [cppPI]
      have := Real.pi_pos
      linarith
    · rw [toRad]
      have h1 : (37.567 : ℝ) * cppPI / 180 < 1.570796 := by norm_num [cppPI]
      linarith
  have hC : 0 ≤ Real.cos (toRad (37.571 : ℝ)) * Real.cos (toRad (37.567 : ℝ)) *
      (Real.sin (toRad ((126.829 : ℝ) - 126.736) / 2) *
        Real.sin (toRad ((126.829 : ℝ) - 126.736) / 2)) :=
    mul_nonneg (mul_nonneg hcos1.le hcos2.le) (mul_self_nonneg _)
  have hA : 0 < Real.sin (toRad ((37.567 : ℝ) - 37.571) / 2) *
      Real.sin (toRad ((37.567 : ℝ) - 37.571) / 2) +
      Real.cos (toRad (37.571 : ℝ)) * Real.cos (toRad (37.567 : ℝ)) *
        (Real.sin (toRad ((126.829 : ℝ) - 126.736) / 2) *
          Real.sin (toRad ((126.829 : ℝ) - 126.736) / 2)) := by linarith
  have h1 := Real.sqrt_pos.mpr hA
  have h2 := Real.sqrt_nonneg (1 - (Real.sin (toRad ((37.567 : ℝ) - 37.571) / 2) *
      Real.sin (toRad ((37.567 : ℝ) - 37.571) / 2) +
      Real.cos (toRad (37.571 : ℝ)) * Real.cos (toRad (37.567 : ℝ)) *
        (Real.sin (toRad ((126.829 : ℝ) - 126.736) / 2) *
          Real.sin (toRad ((126.829 : ℝ) - 126.736) / 2))))
  have h3 := atan2_pos _ _ h1 h2
  have hR : (0 : ℝ) < Rearth := by norm_num [Rearth]
  nlinarith

/-- C7: on the built-in dataset, the segment from `계양역` (cumulative
distance 0.0, coordinates (37.571, 126.736)) to `마곡나루역`
(cumulative distance 9.5, coordinates (37.567, 126.829)) on line `arex`
(speed 60 km/h) succeeds with a track distance of 9.5 km, an elapsed
time of `round(9.5 / 60 * 60) = 10` minutes, and a straight-line
clause computed by the haversine formula from those two coordinate
pairs. -/
theorem claim_C7 :
    calculateSegment subwayLines "계양역" "마곡나루역" "arex" =
      "9.5km(10분, 계양역-마곡나루역, 직선 " ++
        formatFixed1R (calcStraightDist 37.571 126.736 37.567 126.829) ++
        "km)" ∧
    roundAwayQ ((9.5 : ℚ) / 60 * 60) = 10 ∧
    0 < calcStraightDist 37.571 126.736 37.567 126.829 := by
  refine ⟨?_, by rw [roundAwayQ, if_pos (by norm_num)]; norm_num,
    arex_straight_pos⟩
  rw [calculateSegment_found subwayLines "계양역" "마곡나루역" "arex" arexLine
    ⟨"계양역", 0.0, 37.571, 126.736⟩ ⟨"마곡나루역", 9.5, 37.567, 126.829⟩
    rfl rfl rfl]
  simp only [renderSegment]
  have hd : segDistance ⟨"계양역", 0.0, 37.571, 126.736⟩
      ⟨"마곡나루역", 9.5, 37.567, 126.829⟩ = 9.5 := by
    rw [segDistance]
    norm_num
  have hfq : formatFixed1Q (9.5 : ℚ) = "9.5" := by
    have h95 : roundAwayQ ((9.5 : ℚ) * 10) = 95 := by
      rw [roundAwayQ, if_pos (by norm_num)]
      norm_num
    rw [formatFixed1Q, h95]
    rfl
  have hsp : arexLine.avgSpeed = 60.0 := rfl
  have htime : roundAwayQ ((9.5 : ℚ) / 60.0 * 60) = 10 := by
    rw [roundAwayQ, if_pos (by norm_num)]
    norm_num
  rw [hd, hfq, hsp, htime]
  rw [if_pos arex_straight_pos]
  rw [show toString (10 : ℤ) = "10" from rfl]
  simp only [String.append_assoc]
  rw [show ("km" : String) ++ ")" = "km)" from by decide]
  rw [show ("9.5km(10분, 계양역-마곡나루역, 직선 " : String) =
    "9.5" ++ ("km(" ++ ("10" ++ ("분, " ++ ("계양역" ++ ("-" ++
      ("마곡나루역" ++ ", 직선 ")))))) from by decide]
  simp only [String.append_assoc]
